import Mathlib

/-
Verification development for the ppt_ai repository.

The repository builds PowerPoint presentations from structured slide
descriptions.  The core under verification is:
  * `models.py`              — pydantic models (`Section`, `SlideModel`) with
                               field validators (the strongly typed path);
  * `ppt_helpers.py`         — `add_slide` (loosely typed validation over dict
                               sections, then layout + save), `create_ppt`
                               (title slide, save, then per-slide add),
                               `create_column_layout` / `create_row_layout`
                               (the geometry engine);
  * `ppt_creation_agent.py`  — the tool boundary (`add_slide` dispatch).

All numerics are embedded as rationals (`ℚ`); Python's `int()` truncation is
`py_int`.  The file system is an association list from presentation name to
document, and a document records its slides (title plus the rectangles the
layout engine produced for its sections).
-/

namespace PptAi

/--
One loosely typed section as it reaches `ppt_helpers.add_slide` and the layout
functions: a Python dict with keys `header`, `content` and possibly `size`.
`size = none` models a dict without the `size` key; `size = some none` models
an explicit `'size': None` entry; `size = some (some v)` a numeric value.
The layout code's non-dict branch (`not isinstance(section, dict)`) is not
modelled: every section reaching the layout here is a dict.
-/
structure DictSection where
  header : String
  content : List String
  size : Option (Option ℚ)
deriving DecidableEq

/-- Python truthiness of `section.get('size')`: the value when the key is
present with a non-`None`, non-zero number, otherwise nothing. -/
def sizeTruthy (s : DictSection) : Option ℚ :=
  match s.size with
  | some (some v) => if v = 0 then none else some v
  | _ => none

/-- Default section used out of range (never reached for in-range indices). -/
def defaultSection : DictSection := ⟨"", [], none⟩

/-- The `i`-th section of the list. -/
def secAt (ss : List DictSection) (i : ℕ) : DictSection := ss.getD i defaultSection

/-- `size_factor` of section `i` in `create_column_layout`/`create_row_layout`
(ppt_helpers.py lines 287-290 and 326-329):
`section.get('size', 100) / 100 if section.get('size') else 1.0 / len(sections)`. -/
def size_factor (ss : List DictSection) (i : ℕ) : ℚ :=
  match sizeTruthy (secAt ss i) with
  | some v => v / 100
  | none => 1 / (ss.length : ℚ)

/-- `previous_sections_size` for section `i`: the sum of the size factors of
`sections[:i]` (ppt_helpers.py lines 295-299 and 334-338). -/
def previous_sections_size (ss : List DictSection) (i : ℕ) : ℚ :=
  ((List.range i).map (size_factor ss)).sum

/-- `total_width` of `create_column_layout` (line 281):
`12.33 - section_margin * (len(sections) - 1)` with `section_margin = 0.2`. -/
def total_width (ss : List DictSection) : ℚ :=
  1233/100 - (1/5) * ((ss.length : ℚ) - 1)

/-- `total_height` of `create_row_layout` (line 321):
`5.0 - section_margin * (len(sections) - 1)`. -/
def total_height (ss : List DictSection) : ℚ :=
  5 - (1/5) * ((ss.length : ℚ) - 1)

/-- `start_x` of column `i` (line 300):
`margin_x + total_width * previous_sections_size + section_margin * i`. -/
def start_x (ss : List DictSection) (i : ℕ) : ℚ :=
  1/2 + total_width ss * previous_sections_size ss i + (1/5) * (i : ℚ)

/-- The column `width` computed for section `i` (line 292):
`total_width * size_factor`, before the `int()` truncation of line 302. -/
def col_width (ss : List DictSection) (i : ℕ) : ℚ :=
  total_width ss * size_factor ss i

/-- `current_y` of row `i` (line 339):
`margin_y + total_height * previous_sections_size + section_margin * i`. -/
def current_y (ss : List DictSection) (i : ℕ) : ℚ :=
  3/2 + total_height ss * previous_sections_size ss i + (1/5) * (i : ℚ)

/-- The row `height` computed for section `i` (line 331):
`total_height * size_factor`. -/
def row_height (ss : List DictSection) (i : ℕ) : ℚ :=
  total_height ss * size_factor ss i

/-- Python `int()` on a rational: truncation toward zero. -/
def py_int (q : ℚ) : ℤ := if 0 ≤ q then ⌊q⌋ else ⌈q⌉

/-- One rectangle handed to `create_section_box` (origin and size in inches). -/
structure Region where
  x : ℚ
  y : ℚ
  w : ℚ
  h : ℚ
deriving DecidableEq

/-- Area of a region. -/
def Region.area (r : Region) : ℚ := r.w * r.h

/-- The pre-truncation geometry of the column layout: for each section the
pair `(start_x, width)` as computed in the loop body of
`create_column_layout` before the boxes are drawn. -/
def columnGeom (ss : List DictSection) : List (ℚ × ℚ) :=
  (List.range ss.length).map fun i => (start_x ss i, col_width ss i)

/-- The pre-truncation geometry of the row layout: `(current_y, height)` per
section as computed in `create_row_layout`. -/
def rowGeom (ss : List DictSection) : List (ℚ × ℚ) :=
  (List.range ss.length).map fun i => (current_y ss i, row_height ss i)

/-- `create_column_layout` (ppt_helpers.py lines 270-307) as the list of boxes
it draws: `create_section_box(slide, start_x, margin_y, int(width),
int(section_height))` with `margin_y = 1.5` and `section_height = 5.0` —
width and height pass through `int()`. -/
def create_column_layout (ss : List DictSection) : List Region :=
  (List.range ss.length).map fun i =>
    ⟨start_x ss i, 3/2, (py_int (col_width ss i) : ℚ), (py_int 5 : ℚ)⟩

/-- `create_row_layout` (ppt_helpers.py lines 309-347) as the list of boxes it
draws: `create_section_box(slide, margin_x, current_y, total_width, height)`
with `margin_x = 0.5` and `total_width = 12.33` — no truncation. -/
def create_row_layout (ss : List DictSection) : List Region :=
  (List.range ss.length).map fun i =>
    ⟨1/2, current_y ss i, 1233/100, row_height ss i⟩

/-- Generic one-axis tiling origin: `start + extent * (prefix of factors) +
gap * index`, the common shape of `start_x` and `current_y`. -/
def tileOrigin (start extent : ℚ) (ss : List DictSection) (i : ℕ) : ℚ :=
  start + extent * previous_sections_size ss i + (1/5) * (i : ℚ)

/-- A section dict carrying a declared size. -/
def sizedSec (v : ℚ) : DictSection := ⟨"h", [], some (some v)⟩

/-- A section dict without a `size` key. -/
def unsizedSec : DictSection := ⟨"h", [], none⟩

/--
One strongly typed section (`models.Section`): `header`, `content`, optional
`size`.  `size = none` is pydantic's `None` default.
-/
structure Section where
  header : String
  content : List String
  size : Option ℚ
deriving DecidableEq

/-- `Section.validate_size` (models.py lines 14-19): a present size must not
satisfy `v <= 0 or v > 100`. -/
def validate_size (s : Section) : Bool :=
  match s.size with
  | none => true
  | some v => decide (0 < v) && decide (v ≤ 100)

/-- `SlideModel.validate_dimension` (models.py lines 29-34): a present
dimension must be greater than 0. -/
def validate_dimension (o : Option ℤ) : Bool :=
  match o with
  | none => true
  | some d => decide (0 < d)

/-- Python truthiness of an optional integer (`values.get('columns')`,
`if columns:` and the like): present and nonzero. -/
def optTruthy (o : Option ℤ) : Bool :=
  match o with
  | none => false
  | some d => d != 0

/-- The failing condition of `if columns and len(sections) != columns:`
(and the `rows` twin): dimension truthy and count mismatch. -/
def dimMismatch (o : Option ℤ) (n : ℕ) : Bool :=
  match o with
  | none => false
  | some d => d != 0 && (n : ℤ) != d

/-- `SlideModel.validate_sections` (models.py lines 36-62) as an acceptance
predicate: `True` when the validator returns, `False` when it raises.  The
early `if not v: return v` makes an empty section list skip every check. -/
def validate_sections (cols rows : Option ℤ) (ss : List Section) : Bool :=
  if ss = [] then true
  else if optTruthy rows && optTruthy cols then false
  else if dimMismatch cols ss.length then false
  else if dimMismatch rows ss.length then false
  else if ss.filterMap Section.size = [] then true
  else if (ss.filterMap Section.size).length != ss.length then false
  else
    decide (98 ≤ (ss.filterMap Section.size).sum) &&
      decide ((ss.filterMap Section.size).sum ≤ 102)

/-- The strongly typed validation path: constructing a `SlideModel` succeeds
iff every field validator of models.py passes (per-section size validation,
dimension positivity, and `validate_sections`). -/
def slideModelValid (cols rows : Option ℤ) (ss : List Section) : Bool :=
  ss.all validate_size && validate_dimension cols && validate_dimension rows &&
    validate_sections cols rows ss

/-- `Section.model_dump()`: the dict always carries the `size` key, with the
model's optional value (possibly `None`). -/
def model_dump (s : Section) : DictSection := ⟨s.header, s.content, some s.size⟩

/-- Outcome of a helper call: normal return, or a raised exception message. -/
inductive BuildResult where
  | ok : BuildResult
  | err : String → BuildResult
deriving DecidableEq

/-- One slide stored in a persisted document: its title and the section boxes
drawn on it. -/
structure SlideRec where
  title : String
  boxes : List Region
deriving DecidableEq

/-- A persisted presentation document: the ordered list of its slides. -/
structure Doc where
  slides : List SlideRec
deriving DecidableEq

/-- The output directory: a map from presentation name to document file,
as an association list. -/
abbrev FS : Type := List (String × Doc)

/-- File lookup (`os.path.exists` / opening `output/<name>.pptx`). -/
def fsGet : FS → String → Option Doc
  | [], _ => none
  | (k, d) :: t, n => if k = n then some d else fsGet t n

/-- Saving a document under a name (overwrites an existing file). -/
def fsSet : FS → String → Doc → FS
  | [], n, d => [(n, d)]
  | (k, e) :: t, n, d => if k = n then (n, d) :: t else (k, e) :: fsSet t n d

/-- The layout-parameter validation block of `ppt_helpers.add_slide`
(lines 134-168), over the processed dict sections: conflicting dimensions,
count mismatches, the key-presence mixing check, and the size-sum band.
Sizes are collected with `section['size'] is not None` filtering, so an
explicit `None` value passes the mixing check and is skipped in the sum. -/
def addSlideValidate (cols rows : Option ℤ) (ss : List DictSection) : BuildResult :=
  if optTruthy cols && optTruthy rows then .err "Cannot specify both rows and columns"
  else if dimMismatch cols ss.length then .err "Number of sections must match number of columns"
  else if dimMismatch rows ss.length then .err "Number of sections must match number of rows"
  else if ss.any fun s => s.size.isSome then
    if !(ss.all fun s => s.size.isSome) then .err "Cannot mix sized and unsized sections"
    else if !(ss.filterMap fun s => s.size.getD none).isEmpty &&
        (decide ((ss.filterMap fun s => s.size.getD none).sum < 98) ||
          decide ((ss.filterMap fun s => s.size.getD none).sum > 102)) then
      .err "Section sizes must sum to approximately 100%"
    else .ok
  else .ok

/-- The boxes drawn on the new slide by `add_slide` lines 189-196: column
layout when `columns` is truthy, else row layout when `rows` is truthy, else
a basic slide with no boxes. -/
def layoutBoxes (cols rows : Option ℤ) (ss : List DictSection) : List Region :=
  if optTruthy cols then create_column_layout ss
  else if optTruthy rows then create_row_layout ss
  else []

/-- `ppt_helpers.add_slide` (lines 111-204) over the modelled file system:
returns the raised error or ok, together with the resulting file system.
Order follows the source: missing-name, missing-title, missing-file, the
layout validation block, and only then the document is opened, the slide
appended and the file saved (line 199). -/
def add_slide (fs : FS) (name slide_title : String) (cols rows : Option ℤ)
    (ss : List DictSection) : BuildResult × FS :=
  if name = "" then (.err "ppt_name is required", fs)
  else if slide_title = "" then (.err "slide_title is required", fs)
  else
    match fsGet fs name with
    | none => (.err "File not found", fs)
    | some doc =>
      match addSlideValidate cols rows ss with
      | .err e => (.err e, fs)
      | .ok =>
        (.ok, fsSet fs name ⟨doc.slides ++ [⟨slide_title, layoutBoxes cols rows ss⟩]⟩)

/-- The arguments a dispatcher passes to `ppt_helpers.add_slide`. -/
structure HelperArgs where
  cols : Option ℤ
  rows : Option ℤ
  sections : List DictSection
deriving DecidableEq

/-- The dispatch of the tool-boundary `add_slide` in ppt_creation_agent.py
(lines 36-42): `'COLUMN'` forwards `columns=len(sections)`, `'ROW'` forwards
`rows=len(sections)`, anything else calls the helper with neither dimension
nor sections. -/
def agentDispatch (layout : Option String) (sections : Option (List DictSection)) :
    HelperArgs :=
  let ss := sections.getD []
  if layout == some "COLUMN" then ⟨some (ss.length : ℤ), none, ss⟩
  else if layout == some "ROW" then ⟨none, some (ss.length : ℤ), ss⟩
  else ⟨none, none, []⟩

/-- `ppt_creation_agent.add_slide`: dispatch, then the helper call. -/
def agent_add_slide (fs : FS) (ppt_name slide_title : String)
    (layout : Option String) (sections : Option (List DictSection)) :
    BuildResult × FS :=
  let a := agentDispatch layout sections
  add_slide fs ppt_name slide_title a.cols a.rows a.sections

/-- One slide dict of the bulk `create_ppt` entry (lines 57-63): the values
read with `slide_data.get(...)`.  A missing `slide_title` behaves like the
empty string (both are falsy in `add_slide`). -/
structure SlideData where
  slide_title : String
  layout : Option String
  columns : Option ℤ
  rows : Option ℤ
  sections : List DictSection
deriving DecidableEq

/-- The per-slide dispatch of `create_ppt` (lines 65-73, identical in
`create_ppt_from_json` lines 387-396): an explicit `layout == 'columns'` with
truthy `columns` (resp. `'rows'`/`rows`) is forwarded as given; otherwise
non-empty sections infer `columns=len(sections)`, and empty sections give a
basic slide. -/
def bulkDispatch (sd : SlideData) : HelperArgs :=
  if sd.layout == some "columns" && optTruthy sd.columns then
    ⟨sd.columns, none, sd.sections⟩
  else if sd.layout == some "rows" && optTruthy sd.rows then
    ⟨none, sd.rows, sd.sections⟩
  else if sd.sections.isEmpty then ⟨none, none, []⟩
  else ⟨some (sd.sections.length : ℤ), none, sd.sections⟩

/-- The helper call `create_ppt` makes for one slide dict. -/
def slideCall (name : String) (sd : SlideData) (fs : FS) : BuildResult × FS :=
  let a := bulkDispatch sd
  add_slide fs name sd.slide_title a.cols a.rows a.sections

/-- The slide loop of `create_ppt` (lines 55-76): add each slide in turn,
re-raising the first failure. -/
def createPptLoop (name : String) : List SlideData → FS → BuildResult × FS
  | [], fs => (.ok, fs)
  | sd :: rest, fs =>
    match slideCall name sd fs with
    | (.ok, fs2) => createPptLoop name rest fs2
    | (.err e, fs2) => (.err e, fs2)

/-- The freshly created document: one title slide. -/
def titleDoc (title : String) : Doc := ⟨[⟨title, []⟩]⟩

/-- `ppt_helpers.create_ppt` (lines 15-82): reject an empty name, save the
presentation containing the title slide (line 49), then add the provided
slides one by one. -/
def create_ppt (name title : String) (slides : List SlideData) (fs : FS) :
    BuildResult × FS :=
  if name = "" then (.err "Name is required", fs)
  else createPptLoop name slides (fsSet fs name (titleDoc title))

/-- A one-document file system used by concrete instantiations. -/
def exFS : FS := [("p", titleDoc "T")]

/-- Three unsized sections, the input of the end-to-end column example. -/
def threeUnsized : List DictSection :=
  [⟨"A", ["a"], none⟩, ⟨"B", ["b"], none⟩, ⟨"C", ["c"], none⟩]

/-- A lone strongly typed section declaring `size = 98`. -/
def oneSized98 : Section := ⟨"h", [], some 98⟩

/-- A valid basic slide dict (title only). -/
def good1 : SlideData := ⟨"s1", none, none, none, []⟩

/-- A slide dict with a missing title, which `add_slide` rejects. -/
def bad1 : SlideData := ⟨"", none, none, none, []⟩

theorem add_slide_ok_or_id (fs : FS) (nm t : String) (c r : Option ℤ)
    (ss : List DictSection) :
    (add_slide fs nm t c r ss).1 = BuildResult.ok ∨ (add_slide fs nm t c r ss).2 = fs := by
  unfold add_slide
  split_ifs with h1 h2
  · right; rfl
  · right; rfl
  · cases hg : fsGet fs nm with
    | none => right; simp [hg]
    | some doc =>
      cases hv : addSlideValidate c r ss with
      | ok => left; simp [hg, hv]
      | err e => right; simp [hg, hv]

theorem slideCall_err_snd (nm : String) (sd : SlideData) (fs : FS) (e : String)
    (h : (slideCall nm sd fs).1 = BuildResult.err e) : (slideCall nm sd fs).2 = fs := by
  unfold slideCall at h ⊢
  rcases add_slide_ok_or_id fs nm sd.slide_title (bulkDispatch sd).cols
      (bulkDispatch sd).rows (bulkDispatch sd).sections with h2 | h2
  · rw [h] at h2; cases h2
  · exact h2

theorem createPptLoop_cons (nm : String) (sd : SlideData) (rest : List SlideData)
    (fs : FS) :
    createPptLoop nm (sd :: rest) fs =
      match slideCall nm sd fs with
      | (BuildResult.ok, fs2) => createPptLoop nm rest fs2
      | (BuildResult.err e, fs2) => (BuildResult.err e, fs2) := rfl

theorem createPptLoop_append (nm : String) (l1 l2 : List SlideData) (fs : FS)
    (h : (createPptLoop nm l1 fs).1 = BuildResult.ok) :
    createPptLoop nm (l1 ++ l2) fs = createPptLoop nm l2 (createPptLoop nm l1 fs).2 := by
  induction l1 generalizing fs with
  | nil => rfl
  | cons sd rest ih =>
    rw [createPptLoop_cons] at h
    rw [List.cons_append, createPptLoop_cons, createPptLoop_cons]
    cases hc : slideCall nm sd fs with
    | mk b fs2 =>
      rw [hc] at h
      cases b with
      | ok => exact ih fs2 h
      | err e => exact BuildResult.noConfusion h

/-- C9: `add_slide` performs every validation check (missing name or title,
missing file, conflicting rows/columns, dimension/section-count mismatch,
mixed sizing, out-of-band size sum) before the document is opened and saved,
so when the operation raises one of these errors the persisted file system is
unchanged. -/
theorem C9_add_slide_atomic (fs : FS) (nm t : String) (c r : Option ℤ)
    (ss : List DictSection) (e : String)
    (h : (add_slide fs nm t c r ss).1 = BuildResult.err e) :
    (add_slide fs nm t c r ss).2 = fs := by
  rcases add_slide_ok_or_id fs nm t c r ss with h2 | h2
  · rw [h] at h2; cases h2
  · exact h2

/-- C9 witness: a section-count mismatch raises and leaves the stored
document untouched. -/
theorem C9_witness :
    (add_slide exFS "p" "t" (some 2) none []).1 =
      BuildResult.err "Number of sections must match number of columns" ∧
    (add_slide exFS "p" "t" (some 2) none []).2 = exFS :=
  ⟨by decide,
    C9_add_slide_atomic exFS "p" "t" (some 2) none []
      "Number of sections must match number of columns" (by decide)⟩

/-- C10: `create_ppt` saves the document holding the title slide before any
caller-supplied slide is added; when a later slide fails, the call errors but
the file system still holds the partial document — exactly the state reached
after the successful prefix alone. -/
theorem C10_create_ppt_partial (nm title : String) (good : List SlideData)
    (bad : SlideData) (rest : List SlideData) (fs : FS) (e : String)
    (hname : ¬ nm = "")
    (hgood : (create_ppt nm title good fs).1 = BuildResult.ok)
    (hbad : (slideCall nm bad (create_ppt nm title good fs).2).1 = BuildResult.err e) :
    create_ppt nm title (good ++ bad :: rest) fs =
      (BuildResult.err e, (create_ppt nm title good fs).2) := by
  unfold create_ppt at hgood hbad ⊢
  simp only [if_neg hname] at hgood hbad ⊢
  rw [createPptLoop_append nm good (bad :: rest) _ hgood]
  have hsnd := slideCall_err_snd nm bad _ e hbad
  rw [createPptLoop_cons]
  cases hc : slideCall nm bad (createPptLoop nm good (fsSet fs nm (titleDoc title))).2 with
  | mk b fs2 =>
    rw [hc] at hbad hsnd
    have hb : b = BuildResult.err e := hbad
    have hf : fs2 = (createPptLoop nm good (fsSet fs nm (titleDoc title))).2 := hsnd
    subst hb
    subst hf
    rfl

/-- C10 witness: a deck whose second slide lacks a title fails, yet the disk
keeps the title slide and the first slide. -/
theorem C10_witness :
    create_ppt "p" "T" ([good1] ++ bad1 :: []) [] =
      (BuildResult.err "slide_title is required", (create_ppt "p" "T" [good1] []).2) :=
  C10_create_ppt_partial "p" "T" [good1] bad1 [] [] _ (by decide) (by decide) (by decide)

/-- C8 counterexample: at the tool boundary, an absent `layout` with a
non-empty sections list adds a bare slide — the sections are dropped (no
boxes drawn) even though the column layout of that list would be non-empty. -/
theorem C8_counterexample :
    agent_add_slide exFS "p" "t" none (some [unsizedSec]) =
      (BuildResult.ok, [("p", ⟨[⟨"T", []⟩, ⟨"t", []⟩]⟩)]) ∧
    create_column_layout [unsizedSec] ≠ [] := by
  constructor
  · decide
  · decide

/-- C8 amended: COLUMN inference with `columns = len(sections)` for an absent
layout happens only in the bulk `create_ppt`/`create_ppt_from_json` dispatch;
the tool-boundary `add_slide` instead forwards no dimensions and an empty
section list, dropping the sections. -/
theorem C8_layout_inference (sd : SlideData) (hl : sd.layout = none)
    (hs : sd.sections ≠ []) :
    bulkDispatch sd = ⟨some (sd.sections.length : ℤ), none, sd.sections⟩ ∧
    ∀ ss : List DictSection, agentDispatch none (some ss) = ⟨none, none, []⟩ := by
  constructor
  · unfold bulkDispatch
    rw [hl]
    simp [List.isEmpty_iff, hs]
  · intro ss; rfl

/-- C8 witness: the two dispatchers evaluated on one concrete section list. -/
theorem C8_witness :
    bulkDispatch ⟨"t", none, none, none, [unsizedSec]⟩ = ⟨some 1, none, [unsizedSec]⟩ ∧
    agentDispatch none (some [unsizedSec]) = ⟨none, none, []⟩ := by
  have h := C8_layout_inference ⟨"t", none, none, none, [unsizedSec]⟩ rfl (by decide)
  exact ⟨h.1, h.2 [unsizedSec]⟩

theorem add_slide_ok_validate (fs : FS) (nm t : String) (c r : Option ℤ)
    (ss : List DictSection) (h : (add_slide fs nm t c r ss).1 = BuildResult.ok) :
    addSlideValidate c r ss = BuildResult.ok := by
  unfold add_slide at h
  split_ifs at h with h1 h2
  all_goals try exact absurd h (by simp)
  cases hg : fsGet fs nm with
  | none => rw [hg] at h; exact absurd h (by simp)
  | some doc =>
    rw [hg] at h
    cases hv : addSlideValidate c r ss with
    | ok => rfl
    | err e => rw [hv] at h; exact absurd h (by simp)

theorem addSlideValidate_ok_cols (c r : Option ℤ) (ss : List DictSection)
    (h : addSlideValidate c r ss = BuildResult.ok) : dimMismatch c ss.length = false := by
  unfold addSlideValidate at h
  split_ifs at h with h1 h2 h3 <;>
    first
      | exact Bool.eq_false_iff.mpr h2
      | exact absurd h (by simp)

theorem dimMismatch_false_eq (n : ℤ) (hn : n ≠ 0) (len : ℕ)
    (h : dimMismatch (some n) len = false) : (len : ℤ) = n := by
  simp only [dimMismatch, Bool.and_eq_false_iff, bne_eq_false_iff_eq] at h
  rcases h with h | h
  · exact absurd h hn
  · exact h

theorem slideModelValid_sections (c r : Option ℤ) (ss : List Section)
    (h : slideModelValid c r ss = true) : validate_sections c r ss = true := by
  unfold slideModelValid at h
  simp only [Bool.and_eq_true] at h
  exact h.2

theorem validate_sections_cols (c r : Option ℤ) (ss : List Section) (hne : ss ≠ [])
    (h : validate_sections c r ss = true) : dimMismatch c ss.length = false := by
  unfold validate_sections at h
  rw [if_neg hne] at h
  split_ifs at h with h1 h2 h3 <;>
    first
      | exact Bool.eq_false_iff.mpr h2
      | exact absurd h (by simp)

/-- C5 counterexample: the strongly typed validator accepts a slide with
`columns = 3` and zero sections — the early return on an empty section list
skips the dimension/section-count check. -/
theorem C5_counterexample : slideModelValid (some 3) none [] = true := by decide

/-- C5 amended: for a given positive dimension count, both validation paths
accept a non-empty section list only when the count matches exactly, and the
loose path also rejects zero sections; but the strongly typed validator
accepts zero sections against any positive count. -/
theorem C5_dimension_exact (n : ℤ) (hn : 0 < n) :
    (∀ (fs : FS) (nm t : String) (ss : List DictSection),
      (add_slide fs nm t (some n) none ss).1 = BuildResult.ok → (ss.length : ℤ) = n) ∧
    (∀ (fs : FS) (nm t : String) (ss : List DictSection),
      (add_slide fs nm t none (some n) ss).1 = BuildResult.ok → (ss.length : ℤ) = n) ∧
    (∀ ss : List Section, ss ≠ [] →
      slideModelValid (some n) none ss = true → (ss.length : ℤ) = n) ∧
    (∀ ss : List Section, ss ≠ [] →
      slideModelValid none (some n) ss = true → (ss.length : ℤ) = n) ∧
    slideModelValid (some n) none [] = true := by
  have hn0 : n ≠ 0 := ne_of_gt hn
  refine ⟨?_, ?_, ?_, ?_, ?_⟩
  · intro fs nm t ss h
    have hv := add_slide_ok_validate fs nm t (some n) none ss h
    exact dimMismatch_false_eq n hn0 _ (addSlideValidate_ok_cols _ _ _ hv)
  · intro fs nm t ss h
    have hv := add_slide_ok_validate fs nm t none (some n) ss h
    have hrow : dimMismatch (some n) ss.length = false := by
      unfold addSlideValidate at hv
      split_ifs at hv with h1 h2 h3 <;>
        first
          | exact Bool.eq_false_iff.mpr h3
          | exact absurd hv (by simp)
    exact dimMismatch_false_eq n hn0 _ hrow
  · intro ss hne h
    have hv := slideModelValid_sections _ _ _ h
    exact dimMismatch_false_eq n hn0 _ (validate_sections_cols _ _ _ hne hv)
  · intro ss hne h
    have hv := slideModelValid_sections _ _ _ h
    have hrow : dimMismatch (some n) ss.length = false := by
      unfold validate_sections at hv
      rw [if_neg hne] at hv
      split_ifs at hv with h1 h2 h3 <;>
        first
          | exact Bool.eq_false_iff.mpr h3
          | exact absurd hv (by simp)
    exact dimMismatch_false_eq n hn0 _ hrow
  · simp [slideModelValid, validate_sections, validate_dimension, hn]

/-- C5 witness: the amended statement at `n = 3`. -/
theorem C5_witness : (0 : ℤ) < 3 ∧ slideModelValid (some 3) none [] = true :=
  ⟨by decide, (C5_dimension_exact 3 (by decide)).2.2.2.2⟩

/-- C2: three equal unsized sections in COLUMN mode.  The loop computes the
claimed geometry — per-section width `(12.33 − 0.4)/3 = 1193/300 ≈ 3.977` at
x-origins `1/2`, `1403/300 ≈ 4.6767` and `664/75 ≈ 8.8533` — but the boxes
are drawn with the width passed through `int()`, so each rendered region is
3 inches wide, not ≈ 3.977. -/
theorem C2_column_truncation :
    columnGeom threeUnsized =
      [(1/2, 1193/300), (1403/300, 1193/300), (664/75, 1193/300)] ∧
    (create_column_layout threeUnsized).map Region.w = [3, 3, 3] := by
  constructor
  · simp only [columnGeom, threeUnsized, List.length_cons, List.length_nil,
      List.range_succ, List.range_zero, List.nil_append, List.map_append,
      List.map_cons, List.map_nil, List.cons_append, start_x, col_width,
      total_width, previous_sections_size, size_factor, sizeTruthy, secAt,
      List.sum_cons, List.sum_nil, List.getD]
    norm_num
  · simp only [create_column_layout, threeUnsized, List.length_cons,
      List.length_nil, List.range_succ, List.range_zero, List.nil_append,
      List.map_append, List.map_cons, List.map_nil, List.cons_append,
      start_x, col_width, total_width, previous_sections_size, size_factor,
      sizeTruthy, secAt, List.sum_cons, List.sum_nil, List.getD, py_int]
    norm_num [Int.floor_eq_iff]

/-- C1 counterexample: the lone section `size = 98` passes the strongly typed
validation (rows = 1), yet the ROW layout applies the size factor: the single
region's height is `5.0 * 0.98 = 4.9`, not the full usable height `5.0`. -/
theorem C1_counterexample :
    slideModelValid none (some 1) [oneSized98] = true ∧
    create_row_layout [model_dump oneSized98] = [⟨1/2, 3/2, 1233/100, 49/10⟩] ∧
    total_height [model_dump oneSized98] = 5 ∧ (49/10 : ℚ) ≠ 5 := by
  refine ⟨?_, ?_, ?_, by norm_num⟩
  · simp only [slideModelValid, validate_size, validate_dimension,
      validate_sections, optTruthy, dimMismatch, oneSized98, List.all_cons,
      List.all_nil, List.filterMap, List.sum_cons, List.sum_nil,
      List.length_cons, List.length_nil, Bool.and_eq_true, decide_eq_true_eq]
    norm_num
  · simp only [create_row_layout, model_dump, oneSized98, List.length_cons,
      List.length_nil, List.range_succ, List.range_zero, List.nil_append,
      List.map_cons, List.map_nil, current_y, row_height, total_height,
      previous_sections_size, size_factor, sizeTruthy, secAt, List.sum_nil,
      List.getD]
    norm_num
  · simp only [total_height, model_dump, oneSized98, List.length_cons,
      List.length_nil]
    norm_num

/-- C1 amended: a lone section's declared size IS applied as a factor
`size/100`: in ROW mode the single region's height is `5 * size/100` and
equals the full usable height only when `size = 100`, while a lone unsized
section does get the full usable extent in both modes. -/
theorem C1_single_size_applied (v : ℚ) (h0 : 0 < v) (h1 : v ≤ 100) :
    row_height [sizedSec v] 0 = 5 * (v / 100) ∧
    (row_height [sizedSec v] 0 = 5 ↔ v = 100) ∧
    row_height [unsizedSec] 0 = 5 ∧
    col_width [unsizedSec] 0 = 1233/100 := by
  have hv : v ≠ 0 := ne_of_gt h0
  have hst : sizeTruthy (sizedSec v) = some v := by
    simp [sizeTruthy, sizedSec, hv]
  have hsf : size_factor [sizedSec v] 0 = v / 100 := by
    simp [size_factor, secAt, hst]
  have hrow : row_height [sizedSec v] 0 = 5 * (v / 100) := by
    unfold row_height total_height
    rw [hsf]
    norm_num
  refine ⟨hrow, ?_, ?_, ?_⟩
  · rw [hrow]
    constructor
    · intro h; linarith
    · intro h; rw [h]; norm_num
  · simp only [row_height, total_height, size_factor, sizeTruthy, secAt,
      unsizedSec, List.getD, List.length_cons, List.length_nil]
    norm_num
  · simp only [col_width, total_width, size_factor, sizeTruthy, secAt,
      unsizedSec, List.getD, List.length_cons, List.length_nil]
    norm_num

/-- C1 witness: the amended statement at `size = 98` gives height `4.9`. -/
theorem C1_witness : (0 : ℚ) < 98 ∧ row_height [sizedSec 98] 0 = 5 * (98 / 100) :=
  ⟨by norm_num, (C1_single_size_applied 98 (by norm_num) (by norm_num)).1⟩

/-- C6 counterexample: for a single unsized section the COLUMN box (after the
`int()` truncation) has area `12 * 5 = 60` while the ROW box has area
`12.33 * 5 = 61.65`; transposition preserves area, so the two layouts are not
transposes of each other. -/
theorem C6_counterexample :
    (create_column_layout [unsizedSec]).map Region.area = [60] ∧
    (create_row_layout [unsizedSec]).map Region.area = [1233/20] ∧
    (60 : ℚ) ≠ 1233/20 := by
  refine ⟨?_, ?_, by norm_num⟩
  · simp only [create_column_layout, unsizedSec, List.length_cons,
      List.length_nil, List.range_succ, List.range_zero, List.nil_append,
      List.map_cons, List.map_nil, Region.area, start_x, col_width,
      total_width, previous_sections_size, size_factor, sizeTruthy, secAt,
      List.sum_nil, List.getD, py_int]
    norm_num [Int.floor_eq_iff]
  · simp only [create_row_layout, unsizedSec, List.length_cons,
      List.length_nil, List.range_succ, List.range_zero, List.nil_append,
      List.map_cons, List.map_nil, Region.area, current_y, row_height,
      total_height, previous_sections_size, size_factor, sizeTruthy, secAt,
      List.sum_nil, List.getD]
    norm_num

/-- C6 amended: the ROW and COLUMN loops instantiate one common one-axis
tiling scheme — identical size factors, origins `start + extent * prefix +
0.2 * i` — with different axis extents (`12.33 − gaps` horizontally versus
`5.0 − gaps` vertically), so corresponding sizes are proportional across the
two modes; but the COLUMN boxes additionally truncate width and height
through `int()` while ROW boxes do not, so the layouts are not geometric
transposes (areas differ). -/
theorem C6_axis_instances (ss : List DictSection) (i : ℕ) :
    start_x ss i = tileOrigin (1/2) (total_width ss) ss i ∧
    current_y ss i = tileOrigin (3/2) (total_height ss) ss i ∧
    col_width ss i * total_height ss = row_height ss i * total_width ss ∧
    (create_row_layout ss).map Region.h = (List.range ss.length).map (row_height ss) ∧
    (create_column_layout ss).map Region.w =
      (List.range ss.length).map fun j => ((py_int (col_width ss j) : ℤ) : ℚ) := by
  refine ⟨rfl, rfl, ?_, ?_, ?_⟩
  · unfold col_width row_height; ring
  · simp only [create_row_layout, List.map_map]; rfl
  · simp only [create_column_layout, List.map_map]; rfl

theorem filterMap_length_lt {α β : Type} (f : α → Option β) (l : List α) (x : α)
    (hx : x ∈ l) (hfx : f x = none) : (l.filterMap f).length < l.length := by
  induction l with
  | nil => cases hx
  | cons a t ih =>
    rcases List.mem_cons.mp hx with rfl | hmem
    · rw [List.filterMap_cons_none hfx]
      exact Nat.lt_succ_of_le (List.length_filterMap_le f t)
    · cases hfa : f a with
      | none =>
        rw [List.filterMap_cons_none hfa]
        exact Nat.lt_succ_of_lt (ih hmem)
      | some b =>
        rw [List.filterMap_cons_some hfa]
        exact Nat.succ_lt_succ (ih hmem)

theorem filterMap_length_eq {α β : Type} (f : α → Option β) (l : List α)
    (h : ∀ x ∈ l, (f x).isSome = true) : (l.filterMap f).length = l.length := by
  induction l with
  | nil => rfl
  | cons a t ih =>
    obtain ⟨b, hb⟩ := Option.isSome_iff_exists.mp (h a (List.mem_cons_self a t))
    rw [List.filterMap_cons_some hb, List.length_cons, List.length_cons,
      ih fun x hx => h x (List.mem_cons_of_mem a hx)]

/-- The concrete mixed slide: one section sized 98, one with an explicit
`'size': None` entry. -/
def mixedSections : List DictSection := [⟨"a", [], some (some 98)⟩, ⟨"b", [], some none⟩]

/-- C3 counterexample: `add_slide` (the loosely typed path) accepts a slide
that mixes a sized section with an explicitly `None`-sized one — the mixing
check only tests presence of the `size` key, and the sized subset 98 falls in
the sum band on its own. -/
theorem C3_counterexample :
    (add_slide exFS "p" "t" (some 2) none mixedSections).1 = BuildResult.ok ∧
    (mixedSections.any fun s => (s.size.getD none).isSome) = true ∧
    (mixedSections.any fun s => !(s.size.getD none).isSome) = true := by
  refine ⟨?_, by decide, by decide⟩
  have hsizes : (mixedSections.filterMap fun s => s.size.getD none) = [98] := rfl
  have hval : addSlideValidate (some 2) none mixedSections = BuildResult.ok := by
    unfold addSlideValidate
    rw [hsizes]
    norm_num [mixedSections, optTruthy, dimMismatch]
  unfold add_slide
  simp [exFS, fsGet, titleDoc, hval]

/-- C3 amended: the strongly typed path rejects every slide mixing sized
(non-`None`) and unsized sections; the loosely typed path tests mixing by
presence of the `size` key only, so it rejects a slide exactly when some
section dict lacks the key while another has it — a dict with an explicit
`None` size counts as sized there and can slip through (see the
counterexample). -/
theorem C3_mixing_paths :
    (∀ (c r : Option ℤ) (ss : List Section),
      (∃ s ∈ ss, s.size.isSome = true) → (∃ s ∈ ss, s.size = none) →
      slideModelValid c r ss = false) ∧
    (∀ (fs : FS) (nm t : String) (c r : Option ℤ) (ss : List DictSection),
      (∃ s ∈ ss, s.size.isSome = true) → (∃ s ∈ ss, s.size = none) →
      (add_slide fs nm t c r ss).1 ≠ BuildResult.ok) := by
  constructor
  · intro c r ss h1ex h2ex
    obtain ⟨s1, hs1, h1⟩ := h1ex
    obtain ⟨s2, hs2, h2⟩ := h2ex
    have hne : ss ≠ [] := List.ne_nil_of_mem hs1
    have hvs : validate_sections c r ss = false := by
      unfold validate_sections
      rw [if_neg hne]
      obtain ⟨v, hv⟩ := Option.isSome_iff_exists.mp h1
      have hmem : v ∈ ss.filterMap Section.size :=
        List.mem_filterMap.mpr ⟨s1, hs1, hv⟩
      have hlt : (ss.filterMap Section.size).length < ss.length :=
        filterMap_length_lt _ _ s2 hs2 h2
      have hnil : ss.filterMap Section.size ≠ [] := List.ne_nil_of_mem hmem
      have hbne : ((ss.filterMap Section.size).length != ss.length) = true := by
        simp [bne_iff_ne, Nat.ne_of_lt hlt]
      split_ifs <;> simp_all
    unfold slideModelValid
    rw [hvs]
    simp
  · intro fs nm t c r ss h1ex h2ex hok
    have hval := add_slide_ok_validate fs nm t c r ss hok
    obtain ⟨s1, hs1, h1⟩ := h1ex
    obtain ⟨s2, hs2, h2⟩ := h2ex
    have hany : (ss.any fun s => s.size.isSome) = true :=
      List.any_eq_true.mpr ⟨s1, hs1, h1⟩
    have hall : (ss.all fun s => s.size.isSome) = false := by
      rw [List.all_eq_false]
      exact ⟨s2, hs2, by simp [h2]⟩
    unfold addSlideValidate at hval
    simp only [hany, hall] at hval
    split_ifs at hval <;> simp_all

/-- C3 witness: both parts of the amended statement on concrete mixed
slides. -/
theorem C3_witness :
    slideModelValid none none [⟨"a", [], some 50⟩, ⟨"b", [], none⟩] = false ∧
    (add_slide exFS "p" "t" none none
      [⟨"a", [], some (some 50)⟩, ⟨"b", [], none⟩]).1 ≠ BuildResult.ok := by
  constructor
  · exact C3_mixing_paths.1 none none _
      ⟨⟨"a", [], some 50⟩, by simp, rfl⟩ ⟨⟨"b", [], none⟩, by simp, rfl⟩
  · exact C3_mixing_paths.2 exFS "p" "t" none none _
      ⟨⟨"a", [], some (some 50)⟩, by simp, rfl⟩ ⟨⟨"b", [], none⟩, by simp, rfl⟩

/-- C4: for a non-empty slide in which every section carries an individually
valid size (in `(0, 100]`), both validation paths accept exactly when the
size sum lies in the closed band `[98, 102]` — in particular sums of 97 or
103 are rejected and sums of exactly 98 or 102 are accepted. -/
theorem C4_size_sum_band (ss : List Section) (hne : ss ≠ [])
    (hsz : ∀ s ∈ ss, ∃ v, s.size = some v ∧ 0 < v ∧ v ≤ 100) :
    (slideModelValid (some (ss.length : ℤ)) none ss = true ↔
      98 ≤ (ss.filterMap Section.size).sum ∧ (ss.filterMap Section.size).sum ≤ 102) ∧
    (∀ (fs : FS) (nm t : String) (d : Doc), ¬ nm = "" → ¬ t = "" →
      fsGet fs nm = some d →
      ((add_slide fs nm t (some (ss.length : ℤ)) none (ss.map model_dump)).1 =
          BuildResult.ok ↔
        98 ≤ (ss.filterMap Section.size).sum ∧
          (ss.filterMap Section.size).sum ≤ 102)) := by
  have hlen0 : ss.length ≠ 0 := fun h => hne (List.eq_nil_of_length_eq_zero h)
  have hsome : ∀ s ∈ ss, (Section.size s).isSome = true := by
    intro s hs
    obtain ⟨v, hv, _⟩ := hsz s hs
    simp [hv]
  have hflen : (ss.filterMap Section.size).length = ss.length :=
    filterMap_length_eq _ _ hsome
  have hfnil : ss.filterMap Section.size ≠ [] := by
    intro h
    rw [h] at hflen
    exact hlen0 hflen.symm
  have hmm : dimMismatch (some (ss.length : ℤ)) ss.length = false := by
    simp [dimMismatch]
  have hmm3 : dimMismatch none ss.length = false := rfl
  constructor
  · have hall : ss.all validate_size = true := by
      rw [List.all_eq_true]
      intro s hs
      obtain ⟨v, hv, h0, h1⟩ := hsz s hs
      simp [validate_size, hv, h0, h1]
    have hdim : validate_dimension (some (ss.length : ℤ)) = true := by
      simp [validate_dimension]
      exact_mod_cast Nat.pos_of_ne_zero hlen0
    have hvs : validate_sections (some (ss.length : ℤ)) none ss =
        (decide (98 ≤ (ss.filterMap Section.size).sum) &&
          decide ((ss.filterMap Section.size).sum ≤ 102)) := by
      unfold validate_sections
      rw [if_neg hne]
      simp [optTruthy, hmm, hmm3, hfnil, hflen]
    unfold slideModelValid
    rw [hall, hdim, hvs]
    simp [validate_dimension]
  · intro fs nm t d hnm ht hget
    have hsizes : ((ss.map model_dump).filterMap fun s => s.size.getD none) =
        ss.filterMap Section.size := by
      rw [List.filterMap_map]
      rfl
    have hval : addSlideValidate (some (ss.length : ℤ)) none (ss.map model_dump) =
          BuildResult.ok ↔
        98 ≤ (ss.filterMap Section.size).sum ∧
          (ss.filterMap Section.size).sum ≤ 102 := by
      obtain ⟨s0, hs0⟩ := List.exists_mem_of_ne_nil ss hne
      have hany : ((ss.map model_dump).any fun s => s.size.isSome) = true :=
        List.any_eq_true.mpr ⟨model_dump s0, List.mem_map_of_mem model_dump hs0, rfl⟩
      have hall2 : ((ss.map model_dump).all fun s => s.size.isSome) = true := by
        rw [List.all_eq_true]
        intro x hx
        obtain ⟨s, _, rfl⟩ := List.mem_map.mp hx
        rfl
      have hmm2 : dimMismatch (some (ss.length : ℤ)) (ss.map model_dump).length =
          false := by
        rw [List.length_map]
        exact hmm
      have hmm4 : dimMismatch none (ss.map model_dump).length = false := rfl
      have hne2 : (ss.filterMap Section.size).isEmpty = false := by
        simp [List.isEmpty_iff, hfnil]
      have hval_eq : addSlideValidate (some (ss.length : ℤ)) none
            (ss.map model_dump) =
          if (ss.filterMap Section.size).sum < 98 ∨
              102 < (ss.filterMap Section.size).sum
            then BuildResult.err "Section sizes must sum to approximately 100%"
            else BuildResult.ok := by
        unfold addSlideValidate
        rw [hany, hall2, hmm2, hmm4, hsizes]
        simp [optTruthy, hne2]
      rw [hval_eq]
      split_ifs with hband
      · constructor
        · intro h
          exact absurd h (by simp)
        · rintro ⟨hb1, hb2⟩
          exfalso
          rcases hband with hb | hb <;> linarith
      · push_neg at hband
        exact ⟨fun _ => hband, fun _ => rfl⟩
    unfold add_slide
    rw [if_neg hnm, if_neg ht]
    cases hv : addSlideValidate (some (ss.length : ℤ)) none (ss.map model_dump) with
    | ok =>
      simp only [hget, hv]
      constructor
      · intro _
        exact hval.mp hv
      · intro _
        trivial
    | err e =>
      simp only [hget, hv]
      constructor
      · intro hcontra
        exact absurd hcontra (by simp)
      · intro hband
        exact absurd (hval.mpr hband) (by simp [hv])

/-- The concrete all-sized slide `[49, 49]` whose sum 98 sits on the band
edge. -/
def twoSized49 : List Section := [⟨"a", [], some 49⟩, ⟨"b", [], some 49⟩]

/-- C4 witness: the slide `[49, 49]` (sum exactly 98) is accepted on both
paths. -/
theorem C4_witness :
    slideModelValid (some 2) none twoSized49 = true ∧
    (add_slide exFS "p" "t" (some 2) none (twoSized49.map model_dump)).1 =
      BuildResult.ok := by
  have hsz : ∀ s ∈ twoSized49, ∃ v, s.size = some v ∧ 0 < v ∧ v ≤ 100 := by
    intro s hs
    rcases List.mem_cons.mp hs with rfl | hs2
    · exact ⟨49, rfl, by norm_num, by norm_num⟩
    · rcases List.mem_cons.mp hs2 with rfl | hs3
      · exact ⟨49, rfl, by norm_num, by norm_num⟩
      · cases hs3
  have h := C4_size_sum_band twoSized49 (by simp [twoSized49]) hsz
  have hband : 98 ≤ (twoSized49.filterMap Section.size).sum ∧
      (twoSized49.filterMap Section.size).sum ≤ 102 := by
    have : (twoSized49.filterMap Section.size) = [49, 49] := rfl
    rw [this]
    norm_num
  constructor
  · exact (h.1).mpr hband
  · exact (h.2 exFS "p" "t" (titleDoc "T") (by simp) (by simp)
      (by simp [exFS, fsGet])).mpr hband

theorem previous_sections_size_succ (ss : List DictSection) (i : ℕ) :
    previous_sections_size ss (i + 1) = previous_sections_size ss i + size_factor ss i := by
  unfold previous_sections_size
  rw [List.range_succ, List.map_append, List.sum_append]
  simp

theorem start_x_succ (ss : List DictSection) (i : ℕ) :
    start_x ss (i + 1) = start_x ss i + (total_width ss * size_factor ss i + 1/5) := by
  unfold start_x
  rw [previous_sections_size_succ]
  push_cast
  ring

theorem current_y_succ (ss : List DictSection) (i : ℕ) :
    current_y ss (i + 1) = current_y ss i + (total_height ss * size_factor ss i + 1/5) := by
  unfold current_y
  rw [previous_sections_size_succ]
  push_cast
  ring

theorem secAt_mem (ss : List DictSection) (i : ℕ) (h : i < ss.length) :
    secAt ss i ∈ ss := by
  unfold secAt
  rw [List.getD_eq_getElem ss defaultSection h]
  exact List.getElem_mem h

/-- C7 amended: region origins strictly increase along the tiling axis for
every all-unsized list (any length), and for every all-sized list with sizes
in `(0, 100]` provided the section count is at most 63 in COLUMN mode and at
most 26 in ROW mode; beyond those counts the usable extent
(`12.33 − 0.2(N−1)` resp. `5.0 − 0.2(N−1)`) turns negative enough that the
0.2-inch gap no longer compensates, and origins can stall or decrease. -/
theorem C7_origins_increase (ss : List DictSection) (i : ℕ) (hi : i + 1 < ss.length) :
    ((∀ s ∈ ss, sizeTruthy s = none) →
      start_x ss i < start_x ss (i + 1) ∧ current_y ss i < current_y ss (i + 1)) ∧
    ((∀ s ∈ ss, ∃ v, sizeTruthy s = some v ∧ 0 < v ∧ v ≤ 100) →
      (ss.length ≤ 63 → start_x ss i < start_x ss (i + 1)) ∧
      (ss.length ≤ 26 → current_y ss i < current_y ss (i + 1))) := by
  have himem : secAt ss i ∈ ss := secAt_mem ss i (Nat.lt_of_succ_lt hi)
  have h2 : 2 ≤ ss.length := lt_of_le_of_lt (Nat.succ_le_succ (Nat.zero_le i)) hi
  have hq2 : (2 : ℚ) ≤ (ss.length : ℚ) := by exact_mod_cast h2
  have hq0 : (0 : ℚ) < (ss.length : ℚ) := by linarith
  constructor
  · intro hun
    have hf : size_factor ss i = 1 / (ss.length : ℚ) := by
      unfold size_factor
      rw [hun (secAt ss i) himem]
    constructor
    · rw [start_x_succ]
      have hkey : total_width ss * size_factor ss i + 1/5 =
          1253/100 / (ss.length : ℚ) := by
        rw [hf]
        unfold total_width
        field_simp
        ring
      rw [hkey]
      exact lt_add_of_pos_right _ (div_pos (by norm_num) hq0)
    · rw [current_y_succ]
      have hkey : total_height ss * size_factor ss i + 1/5 =
          26/5 / (ss.length : ℚ) := by
        rw [hf]
        unfold total_height
        field_simp
        ring
      rw [hkey]
      exact lt_add_of_pos_right _ (div_pos (by norm_num) hq0)
  · intro hsz
    obtain ⟨v, hv, h0, h1⟩ := hsz (secAt ss i) himem
    have hf : size_factor ss i = v / 100 := by
      unfold size_factor
      rw [hv]
    have hf1 : v / 100 ≤ 1 := by linarith
    have hf0 : (0 : ℚ) < v / 100 := by positivity
    constructor
    · intro h63
      have hq63 : (ss.length : ℚ) ≤ 63 := by exact_mod_cast h63
      rw [start_x_succ]
      apply lt_add_of_pos_right
      rw [hf]
      have hW : -(7/100) ≤ total_width ss := by
        unfold total_width
        linarith
      rcases le_or_lt 0 (total_width ss) with hW0 | hW0
      · have := mul_nonneg hW0 hf0.le
        linarith
      · have hle := mul_le_mul_of_nonpos_left hf1 hW0.le
        rw [mul_one] at hle
        linarith
    · intro h26
      have hq26 : (ss.length : ℚ) ≤ 26 := by exact_mod_cast h26
      rw [current_y_succ]
      apply lt_add_of_pos_right
      rw [hf]
      have hH : 0 ≤ total_height ss := by
        unfold total_height
        linarith
      have := mul_nonneg hH hf0.le
      linarith

/-- C7 witness: two unsized sections have strictly increasing origins in both
modes. -/
theorem C7_witness :
    start_x [unsizedSec, unsizedSec] 0 < start_x [unsizedSec, unsizedSec] 1 ∧
    current_y [unsizedSec, unsizedSec] 0 < current_y [unsizedSec, unsizedSec] 1 :=
  (C7_origins_increase [unsizedSec, unsizedSec] 0 (by norm_num)).1
    (by
      intro s hs
      rcases List.mem_cons.mp hs with rfl | hs2
      · rfl
      · rcases List.mem_cons.mp hs2 with rfl | hs3
        · rfl
        · cases hs3)

/-- The 28-row slide: one section sized 100 followed by 27 sections sized
2/27 each; the sizes are individually valid and sum to exactly 102. -/
def rows28 : List Section :=
  ⟨"a", [], some 100⟩ :: List.replicate 27 ⟨"b", [], some (2/27)⟩

theorem filterMap_size_replicate (n : ℕ) (v : ℚ) :
    (List.replicate n (⟨"b", [], some v⟩ : Section)).filterMap Section.size =
      List.replicate n v := by
  induction n with
  | zero => rfl
  | succ k ih =>
    simp only [List.replicate_succ, List.filterMap_cons, ih]

/-- C7 counterexample: the 28-row slide passes the strongly typed validation
(rows = 28, sizes in `(0,100]`, sum 102 ∈ [98,102]), yet in ROW mode the
second region's y-origin `1.3` is strictly below the first one's `1.5` — the
origins are not strictly increasing. -/
theorem C7_counterexample :
    slideModelValid none (some 28) rows28 = true ∧
    current_y (rows28.map model_dump) 1 < current_y (rows28.map model_dump) 0 := by
  have hlen : rows28.length = 28 := by simp [rows28]
  have hsizes : rows28.filterMap Section.size = 100 :: List.replicate 27 (2/27) := by
    unfold rows28
    simp only [List.filterMap_cons, filterMap_size_replicate]
  have hsum : (rows28.filterMap Section.size).sum = 102 := by
    rw [hsizes, List.sum_cons, List.sum_replicate, nsmul_eq_mul]
    norm_num
  have hflen : (rows28.filterMap Section.size).length = 28 := by
    rw [hsizes]
    simp
  constructor
  · have hne : rows28 ≠ [] := by simp [rows28]
    have hall : rows28.all validate_size = true := by
      rw [List.all_eq_true]
      intro s hs
      rcases List.mem_cons.mp hs with rfl | hs2
      · norm_num [validate_size]
      · rw [List.eq_of_mem_replicate hs2]
        norm_num [validate_size]
    have hvs : validate_sections none (some 28) rows28 = true := by
      unfold validate_sections
      rw [if_neg hne]
      have hfnil : rows28.filterMap Section.size ≠ [] := by
        rw [hsizes]
        simp
      simp [optTruthy, dimMismatch, hlen, hflen, hsum, hfnil]
      norm_num
    unfold slideModelValid
    rw [hall, hvs]
    norm_num [validate_dimension]
  · have hsec0 : secAt (rows28.map model_dump) 0 = ⟨"a", [], some (some 100)⟩ := by
      simp [secAt, rows28, model_dump]
    have hsf0 : size_factor (rows28.map model_dump) 0 = 1 := by
      unfold size_factor
      rw [hsec0]
      norm_num [sizeTruthy]
    have hdlen : (rows28.map model_dump).length = 28 := by simp [rows28]
    have hp0 : previous_sections_size (rows28.map model_dump) 0 = 0 := rfl
    have hp1 : previous_sections_size (rows28.map model_dump) 1 = 1 := by
      unfold previous_sections_size
      rw [List.range_succ, List.range_zero, List.nil_append, List.map_cons,
        List.map_nil, List.sum_cons, List.sum_nil, hsf0]
      norm_num
    unfold current_y total_height
    rw [hp0, hp1, hdlen]
    norm_num

end PptAi
